import Mathlib

/-!
Verification of the payroll-service billing ledger (`src/examples/emulator2.py`)
against its natural-language specification.

The Python source is shallowly embedded: monetary floats become rationals
(`ℚ`) with explicit rounding to two decimals, Python `date` values become a
year/month/day structure with calendar-aware day arithmetic, SQL row updates
become functions on explicit record structures, and fallible UI submissions
become `Except` values carrying the batch of validation error strings.
-/

namespace Emulator

/-! ## Calendar model

Python `datetime.date` values: a proleptic-Gregorian year/month/day triple.
`timedelta(days=n)` addition is embedded as `n`-fold application of the
calendar successor function `nextDay`.
-/

/-- A calendar date, mirroring Python `datetime.date`. -/
structure Date where
  year : ℕ
  month : ℕ
  day : ℕ
deriving DecidableEq, Repr

/-- Gregorian leap-year rule. -/
def isLeap (y : ℕ) : Bool :=
  y % 4 = 0 && (y % 100 ≠ 0 || y % 400 = 0)

/-- Number of days in a month of a given year. -/
def daysInMonth (y m : ℕ) : ℕ :=
  if m = 2 then (if isLeap y then 29 else 28)
  else if m = 4 ∨ m = 6 ∨ m = 9 ∨ m = 11 then 30
  else 31

/-- A structurally valid calendar date. -/
def Date.Valid (d : Date) : Prop :=
  1 ≤ d.month ∧ d.month ≤ 12 ∧ 1 ≤ d.day ∧ d.day ≤ daysInMonth d.year d.month

instance (d : Date) : Decidable d.Valid := by
  unfold Date.Valid; infer_instance

/-- The calendar successor of a date (`date + timedelta(days=1)`). -/
def nextDay (d : Date) : Date :=
  if d.day < daysInMonth d.year d.month then ⟨d.year, d.month, d.day + 1⟩
  else if d.month < 12 then ⟨d.year, d.month + 1, 1⟩
  else ⟨d.year + 1, 1, 1⟩

/-- `date + timedelta(days=n)`. -/
def addDays (d : Date) : ℕ → Date
  | 0 => d
  | n + 1 => addDays (nextDay d) n

/-- The calendar predecessor of a date (`date - timedelta(days=1)`). -/
def prevDay (d : Date) : Date :=
  if 1 < d.day then ⟨d.year, d.month, d.day - 1⟩
  else if 1 < d.month then ⟨d.year, d.month - 1, daysInMonth d.year (d.month - 1)⟩
  else ⟨d.year - 1, 12, 31⟩

/-- Numeric key giving the calendar order of (valid) dates, used to embed
Python `date` comparisons. -/
def dateKey (d : Date) : ℕ := d.year * 10000 + d.month * 100 + d.day

/-- `first_of_next_month` from the source: wraps December to January of the
following year. -/
def first_of_next_month (d : Date) : Date :=
  if d.month = 12 then ⟨d.year + 1, 1, 1⟩ else ⟨d.year, d.month + 1, 1⟩

/-- `plus_one_year` from the source: a fixed 365-day offset. -/
def plus_one_year (d : Date) : Date := addDays d 365

/-- SQLite `DATE(x, '+1 year')`: increment the year, normalising a Feb 29
that lands in a non-leap year into March. -/
def sqliteAddOneYear (d : Date) : Date :=
  if d.day ≤ daysInMonth (d.year + 1) d.month then ⟨d.year + 1, d.month, d.day⟩
  else ⟨d.year + 1, d.month + 1, d.day - daysInMonth (d.year + 1) d.month⟩

/-! ## Money

Monetary values are embedded as rationals; `round(x, 2)` becomes `round2`. -/

/-- Python `round(x, 2)` / SQLite `ROUND(x, 2)`: round to two decimal places
(to the nearest multiple of 1/100). -/
def round2 (x : ℚ) : ℚ := ((x * 100 + 1/2).floor : ℚ) / 100

theorem round2_eq (x : ℚ) : round2 x = ((⌊x * 100 + 1/2⌋ : ℤ) : ℚ) / 100 := by
  unfold round2
  rw [Rat.floor_def, Rat.floor_def']

theorem round2_mono {x y : ℚ} (h : x ≤ y) : round2 x ≤ round2 y := by
  rw [round2_eq, round2_eq]
  have hf : ⌊x * 100 + 1/2⌋ ≤ ⌊y * 100 + 1/2⌋ := Int.floor_le_floor (by linarith)
  have : ((⌊x * 100 + 1/2⌋ : ℤ) : ℚ) ≤ ((⌊y * 100 + 1/2⌋ : ℤ) : ℚ) := by exact_mod_cast hf
  linarith

theorem round2_intCast (n : ℤ) : round2 (n : ℚ) = (n : ℚ) := by
  rw [round2_eq]
  have h1 : ((n : ℚ) * 100 + 1/2) = ((n * 100 : ℤ) : ℚ) + 1/2 := by push_cast; ring
  rw [h1, Int.floor_int_add]
  norm_num

/-- `pct_increase` from the source. -/
def pct_increase (val : ℚ) (pct : ℚ) : ℚ := round2 (val * (1 + pct / 100))

/-! ## Pay frequencies and period-start validation -/

/-- The `PAY_FREQ` enumeration. -/
inductive Freq where
  | weekly
  | biweekly
  | semiMonthly
  | monthly
deriving DecidableEq, Repr

/-- `validate_start_date` from the source: returns the validity flag and the
error message shown when invalid. -/
def validate_start_date (freq : Freq) (d : Date) : Bool × String :=
  match freq with
  | .weekly => (true, "")
  | .biweekly => (true, "")
  | .semiMonthly => (decide (d.day = 1 ∨ d.day = 16), "Pay start date must be the 1st or the 16th.")
  | .monthly => (decide (d.day = 1), "Pay start date must be the 1st.")

/-- `advance_pay_start_date` from the source. The Python function returns
`None` (after a warning) when the start day is illegal for the frequency. -/
def advance_pay_start_date (current_start : Date) (freq : Freq) : Option Date :=
  match freq with
  | .weekly => some (addDays current_start 7)
  | .biweekly => some (addDays current_start 14)
  | .semiMonthly =>
      if current_start.day = 1 then some ⟨current_start.year, current_start.month, 16⟩
      else if current_start.day = 16 then some (first_of_next_month current_start)
      else none
  | .monthly =>
      if current_start.day = 1 then some (first_of_next_month current_start)
      else none

/-- `n`-fold application of `advance_pay_start_date`, propagating failure. -/
def advance_iter (freq : Freq) : ℕ → Date → Option Date
  | 0, d => some d
  | n + 1, d => (advance_pay_start_date d freq).bind (advance_iter freq n)

/-! ## Cost calculator -/

/-- `calc_cost` from the source. Counts are integers (`int(...)` casts in the
source); fees are monetary rationals. -/
def calc_cost (base_fee add_state_fee add_employee_fee : ℚ)
    (num_states_in_base_fee num_employees_in_base_fee : ℤ)
    (payroll_registration : ℤ) (registration_fee : ℚ)
    (num_states_processed num_employees_processed : ℤ)
    (registration_this_period : Bool) (num_states_registered : ℤ) : ℚ :=
  let extra_states : ℤ := max 0 (num_states_processed - num_states_in_base_fee)
  let extra_emps : ℤ := max 0 (num_employees_processed - num_employees_in_base_fee)
  let total := base_fee + (extra_states : ℚ) * add_state_fee + (extra_emps : ℚ) * add_employee_fee
  let total :=
    if registration_this_period ∧ payroll_registration = 1 then
      total + ((max 0 (num_states_registered - num_states_in_base_fee) : ℤ) : ℚ) * registration_fee
    else total
  round2 total

/-! ## Client records and the fee-increase rollover -/

/-- A row of the `clients` table (the fields the engine reads or writes). -/
structure Client where
  id : ℕ
  client_name : String
  pay_frequency : Freq
  pay_start_date : Date
  processing_date : Date
  pay_date : Date
  base_fee : ℚ
  num_states_in_base_fee : ℤ
  num_employees_in_base_fee : ℤ
  add_state_fee : ℚ
  add_employee_fee : ℚ
  use_pct_increase : ℤ
  fee_increase_pct : ℚ
  fee_increase_effective_date : Date
  incr_base_fee : ℚ
  incr_add_state_fee : ℚ
  incr_add_employee_fee : ℚ
  payroll_registration : ℤ
  registration_fee : ℚ
  terminated : Bool
deriving DecidableEq, Repr

/-- The SQL `UPDATE` of `rollover_fees_for_today` applied to one matching
client row. Every right-hand side reads the pre-update row (SQL single-row
update semantics), so the new `incr_*` values are computed from the old
`incr_*` values, i.e. from the values just promoted into the current fees. -/
def rolloverClient (c : Client) : Client :=
  { c with
    fee_increase_effective_date := sqliteAddOneYear c.fee_increase_effective_date
    base_fee := c.incr_base_fee
    add_state_fee := c.incr_add_state_fee
    add_employee_fee := c.incr_add_employee_fee
    incr_base_fee := round2 (c.incr_base_fee * (1 + c.fee_increase_pct / 100))
    incr_add_state_fee := round2 (c.incr_add_state_fee * (1 + c.fee_increase_pct / 100))
    incr_add_employee_fee := round2 (c.incr_add_employee_fee * (1 + c.fee_increase_pct / 100))
    use_pct_increase := 1 }

/-- The per-row effect of the rollover `UPDATE`: its `WHERE terminated = 0 AND
fee_increase_effective_date = ?` clause selects the row or leaves it alone. -/
def rolloverStep (today : Date) (c : Client) : Client :=
  if c.terminated = false ∧ c.fee_increase_effective_date = today then rolloverClient c else c

/-- `rollover_fees_for_today` from the source: one batch `UPDATE` over the
whole `clients` table. -/
def rollover_fees_for_today (today : Date) (cs : List Client) : List Client :=
  cs.map (rolloverStep today)

/-- The state `maybe_rollover_fees_for_today` operates on: the client table
plus the session-stored `last_rollover_date` marker. -/
structure SysState where
  clients : List Client
  last_rollover_date : Option Date
deriving DecidableEq, Repr

/-- `maybe_rollover_fees_for_today` from the source: run the rollover unless
the marker says it already ran today, then record today in the marker. -/
def maybe_rollover_fees_for_today (today : Date) (s : SysState) : SysState :=
  if s.last_rollover_date = some today then s
  else ⟨rollover_fees_for_today today s.clients, some today⟩

/-! ## Transactions -/

/-- `period_type` of a transaction. -/
inductive PeriodType where
  | regular
  | additional
deriving DecidableEq, Repr

/-- The pricing-snapshot and usage fields stored on a transaction (the `snap`
dictionary built by the period screens); exactly the arguments of
`calc_cost`. -/
structure PeriodSnap where
  base_fee : ℚ
  add_state_fee : ℚ
  add_employee_fee : ℚ
  num_states_in_base_fee : ℤ
  num_employees_in_base_fee : ℤ
  payroll_registration : ℤ
  registration_fee : ℚ
  num_states_processed : ℤ
  num_employees_processed : ℤ
  registration_this_period : Bool
  num_states_registered : ℤ
deriving DecidableEq, Repr

/-- `calc_cost(**snap)`. -/
def calcCostSnap (s : PeriodSnap) : ℚ :=
  calc_cost s.base_fee s.add_state_fee s.add_employee_fee s.num_states_in_base_fee
    s.num_employees_in_base_fee s.payroll_registration s.registration_fee
    s.num_states_processed s.num_employees_processed s.registration_this_period
    s.num_states_registered

/-- A row of the `transactions` table. -/
structure Txn where
  client_id : ℕ
  period_type : PeriodType
  pay_frequency : Freq
  pay_start_date : Date
  pay_end_date : Date
  processing_date : Date
  pay_date : Date
  snap : PeriodSnap
  cost : ℚ
  collected : ℚ
  collection_description : String
  collection_date : Option String
  net_amount : ℚ
deriving DecidableEq, Repr

/-! ## Period creation and editing -/

/-- Operator inputs on the new-pay-period screen (`render_period`). Widgets
can be left empty, hence `Option`. For a regular period the start/end dates
are derived from the client, not read from the form. -/
structure PeriodForm where
  start_dt : Option Date
  end_dt : Option Date
  processing_date : Option Date
  pay_date : Option Date
  n_emp : Option ℤ
  n_states : Option ℤ
  register_choice : Bool
  num_register_states : Option ℤ
deriving DecidableEq, Repr

/-- The validation-error batch collected by the Submit/Save handlers of
`render_period` and `render_edit_period` (identical check lists), given the
already-resolved start/end dates. -/
def period_submit_errors (period_type : PeriodType) (freq : Freq)
    (start_opt end_opt processing_opt pay_opt : Option Date)
    (n_emp n_states : Option ℤ) (registration_this_period : Bool)
    (num_register_states : Option ℤ) : List String :=
  (if period_type = .additional then
    (match start_opt with
     | none => ["• Pay Start Date is required."]
     | some sd =>
         if (validate_start_date freq sd).1 then []
         else ["• " ++ (validate_start_date freq sd).2]) ++
    (match end_opt with
     | none => ["• Pay End Date is required."]
     | some ed =>
         match start_opt with
         | some sd =>
             if dateKey ed ≤ dateKey sd then ["• Pay End Date should be after Pay Start Date."]
             else []
         | none => [])
   else []) ++
  (match processing_opt with
   | none => ["• Processing Date is required."]
   | some prd =>
       match end_opt with
       | some ed =>
           if dateKey prd < dateKey ed then ["• Processing Date must be on/after the Pay End Date."]
           else []
       | none => []) ++
  (match pay_opt with
   | none => ["• Pay Date is required."]
   | some payd =>
       match processing_opt with
       | some prd =>
           if dateKey payd < dateKey prd then ["• Pay Date must be on/after the Processing Date."]
           else []
       | none => []) ++
  (if n_emp = none then ["• Number of Employees must be > 0."] else []) ++
  (if n_states = none then ["• Number of States must be > 0."] else []) ++
  (if registration_this_period ∧ (num_register_states = none ∨ num_register_states.getD 0 ≤ 0)
   then ["• Number of States Registered must be > 0."] else [])

/-- The Submit handler of `render_period`: resolve the period dates (derived
for a regular period, operator-supplied for an additional one), collect the
validation batch, and on success build the transaction row that is inserted
(`new_period`, with `collected = 0` and `net_amount = cost`). The `none`
arm of the regular-period date derivation mirrors the warning path of
`advance_pay_start_date` on an illegal stored start day. -/
def submit_period (client : Client) (period_type : PeriodType) (f : PeriodForm) :
    Except (List String) Txn :=
  let rtp := if client.payroll_registration = 1 then f.register_choice else false
  let nrs := if rtp then f.num_register_states else some (0 : ℤ)
  let resolved : Option (Option Date × Option Date) :=
    match period_type with
    | .regular =>
        (advance_pay_start_date client.pay_start_date client.pay_frequency).map
          (fun ns => (some client.pay_start_date, some (prevDay ns)))
    | .additional => some (f.start_dt, f.end_dt)
  match resolved with
  | none => Except.error ["Pay Start Date has to be the 1st or 16th of the month"]
  | some (start_opt, end_opt) =>
      let errs := period_submit_errors period_type client.pay_frequency start_opt end_opt
        f.processing_date f.pay_date f.n_emp f.n_states rtp nrs
      if errs ≠ [] then Except.error errs
      else
        let snap : PeriodSnap :=
          { base_fee := client.base_fee
            add_state_fee := client.add_state_fee
            add_employee_fee := client.add_employee_fee
            num_states_in_base_fee := client.num_states_in_base_fee
            num_employees_in_base_fee := client.num_employees_in_base_fee
            payroll_registration := client.payroll_registration
            registration_fee := client.registration_fee
            num_states_processed := f.n_states.getD 0
            num_employees_processed := f.n_emp.getD 0
            registration_this_period := rtp
            num_states_registered := nrs.getD 0 }
        let cost := calcCostSnap snap
        Except.ok
          { client_id := client.id
            period_type := period_type
            pay_frequency := client.pay_frequency
            pay_start_date := start_opt.getD client.pay_start_date
            pay_end_date := end_opt.getD client.pay_start_date
            processing_date := f.processing_date.getD client.processing_date
            pay_date := f.pay_date.getD client.pay_date
            snap := snap
            cost := cost
            collected := 0
            collection_description := ""
            collection_date := none
            net_amount := cost }

/-- Operator inputs on the edit-pay-period screen (`render_edit_period`),
prefilled from the stored transaction. -/
structure EditForm where
  start_dt : Option Date
  end_dt : Option Date
  base_fee : ℚ
  num_states_in_base : ℤ
  num_employees_in_base : ℤ
  add_state_fee : ℚ
  add_employee_fee : ℚ
  processing_date : Option Date
  pay_date : Option Date
  n_emp : Option ℤ
  n_states : Option ℤ
  register_choice : Bool
  registration_fee : ℚ
  num_register_states : Option ℤ
deriving DecidableEq, Repr

/-- The Save handler of `render_edit_period`: same validation batch as
creation; on success the `UPDATE` writes the dates, the re-snapshotted fee
fields and the recomputed `cost` — and nothing else: `collected`,
`net_amount`, the collection fields and `pay_date` are not in the written
field set. -/
def save_edit_period (txn : Txn) (f : EditForm) : Except (List String) Txn :=
  let rtp := if txn.snap.payroll_registration = 1 then f.register_choice else false
  let rfee :=
    if txn.snap.payroll_registration = 1 then
      (if rtp then f.registration_fee else txn.snap.registration_fee)
    else 0
  let nrs :=
    if txn.snap.payroll_registration = 1 then
      (if rtp then f.num_register_states else some (0 : ℤ))
    else some (0 : ℤ)
  let start_opt :=
    match txn.period_type with
    | .regular => some txn.pay_start_date
    | .additional => f.start_dt
  let end_opt :=
    match txn.period_type with
    | .regular => some txn.pay_end_date
    | .additional => f.end_dt
  let errs := period_submit_errors txn.period_type txn.pay_frequency start_opt end_opt
    f.processing_date f.pay_date f.n_emp f.n_states rtp nrs
  if errs ≠ [] then Except.error errs
  else
    let snap : PeriodSnap :=
      { base_fee := f.base_fee
        add_state_fee := f.add_state_fee
        add_employee_fee := f.add_employee_fee
        num_states_in_base_fee := f.num_states_in_base
        num_employees_in_base_fee := f.num_employees_in_base
        payroll_registration := txn.snap.payroll_registration
        registration_fee := rfee
        num_states_processed := f.n_states.getD 0
        num_employees_processed := f.n_emp.getD 0
        registration_this_period := rtp
        num_states_registered := nrs.getD 0 }
    let cost := calcCostSnap snap
    Except.ok
      { txn with
        pay_start_date := start_opt.getD txn.pay_start_date
        pay_end_date := end_opt.getD txn.pay_end_date
        processing_date := f.processing_date.getD txn.processing_date
        snap := snap
        cost := cost }

/-! ## Collections update -/

/-- One edited row of the collections data editor: the transaction id, its
read-only cost, and the operator-editable collection fields. The editor's
`collected` column is a float64 column (the stored field is `REAL NOT NULL`),
so a cleared cell comes back as a pandas `NaN`, embedded as `none`; a present
amount, including 0.0, is `some`. -/
structure CollectRow where
  id : ℕ
  cost : ℚ
  collected : Option ℚ
  collection_description : Option String
  collection_date : Option String
deriving DecidableEq, Repr

/-- The field values one row write binds into `UPDATE transactions SET ...`.
`none` in a numeric field is a float `NaN`, which the sqlite3 driver binds as
SQL `NULL`. -/
structure CollectUpdate where
  id : ℕ
  collected : Option ℚ
  collection_description : String
  collection_date : String
  net_amount : Option ℚ
deriving DecidableEq, Repr

/-- Python `str.strip()`: drop leading and trailing whitespace. -/
def pyStrip (s : String) : String :=
  String.mk (((s.data.dropWhile Char.isWhitespace).reverse.dropWhile Char.isWhitespace).reverse)

/-- Split a character list at `'/'` separators, as `s.split("/")` does. -/
def splitSlash (cs : List Char) : List (List Char) :=
  match cs with
  | [] => [[]]
  | c :: rest =>
      let r := splitSlash rest
      if c = '/' then [] :: r
      else
        match r with
        | [] => [[c]]
        | g :: gs => (c :: g) :: gs

/-- Decimal value of a digit group. -/
def digitsToNat (cs : List Char) : ℕ :=
  cs.foldl (fun n c => n * 10 + (c.toNat - 48)) 0

/-- Parse-and-validate of a `MM/DD/YYYY` string, embedding
`pd.to_datetime(s, format="%m/%d/%Y", errors="coerce")` being non-`NaT`:
three slash-separated digit groups forming a real calendar date. -/
def parse_mmddyyyy (s : String) : Option Date :=
  match splitSlash s.data with
  | [ms, ds, ys] =>
      if ms.length = 0 ∨ 2 < ms.length ∨ ¬ ms.all Char.isDigit then none
      else if ds.length = 0 ∨ 2 < ds.length ∨ ¬ ds.all Char.isDigit then none
      else if ys.length = 0 ∨ 4 < ys.length ∨ ¬ ys.all Char.isDigit then none
      else
        let m := digitsToNat ms
        let d := digitsToNat ds
        let y := digitsToNat ys
        if 1 ≤ m ∧ m ≤ 12 ∧ 1 ≤ d ∧ d ≤ daysInMonth y m then some ⟨y, m, d⟩ else none
  | _ => none

/-- The pre-write validation of `update_client_payments`: rows whose
collection date is absent or whitespace-only are skipped; any other row must
carry a parseable date. -/
def rowDateOk (r : CollectRow) : Bool :=
  match r.collection_date with
  | none => true
  | some s => pyStrip s == "" || (parse_mmddyyyy s).isSome

/-- The per-row `UPDATE` body of `update_client_payments`. The source's
`collect = float(r["collected"] or 0)` is the identity on a float cell: a
present 0.0 is falsy and replaced by 0, any other number is kept, and a
cleared cell is `NaN`, which is truthy and therefore kept as `NaN` — so an
absent amount propagates (`none`) rather than becoming 0, and
`net = round(r["cost"] - collect, 2)` is then `NaN` as well. -/
def applyCollectRow (r : CollectRow) : CollectUpdate :=
  let collect := r.collected
  { id := r.id
    collected := collect
    collection_description := pyStrip (r.collection_description.getD "")
    collection_date :=
      match r.collection_date with
      | some s => if s = "" then "" else s
      | none => ""
    net_amount := collect.map (fun c => round2 (r.cost - c)) }

/-- `update_client_payments` from the source: validate all collection dates
first and on any bad date return the message, writing nothing. Otherwise the
row loop runs inside one `with conn` transaction: the first row whose
collected amount is `NaN` binds `NULL` into the `NOT NULL` columns
`collected`/`net_amount`, sqlite raises `IntegrityError`, and the context
manager rolls the whole batch back — every row is written or none is, so the
first-bad-row abort is embedded as a whole-batch check. -/
def update_client_payments (updates : List CollectRow) :
    Except String (List CollectUpdate) :=
  if ¬ updates.all rowDateOk then
    Except.error "Collection Date must be a valid date in the form of MM/DD/YYYY"
  else if updates.all (fun r => r.collected.isSome) then
    Except.ok (updates.map applyCollectRow)
  else Except.error "NOT NULL constraint failed: transactions.collected"

/-! ## Receivables and termination -/

/-- `get_client_net_amount` from the source: sum of `net_amount` over the
client's transactions. -/
def get_client_net_amount (txns : List Txn) (client_id : ℕ) : ℚ :=
  ((txns.filter (fun t => t.client_id == client_id)).map (fun t => t.net_amount)).sum

/-- The Terminate button handler of the client-detail page: if the summed net
amount is positive, the outstanding-balance dialog is shown and nothing is
written; otherwise the confirmed termination sets the `terminated` flag and
changes nothing else. -/
def terminate_client (txns : List Txn) (c : Client) : Except String Client :=
  let total_net := get_client_net_amount txns c.id
  if total_net > 0 then Except.error "outstanding balance"
  else Except.ok { c with terminated := true }

/-! ## Concrete records used to instantiate the theorems -/

/-- A concrete active semi-monthly client. -/
def sampleClient : Client :=
  { id := 1
    client_name := "ACME"
    pay_frequency := .semiMonthly
    pay_start_date := ⟨2025, 1, 1⟩
    processing_date := ⟨2025, 1, 16⟩
    pay_date := ⟨2025, 1, 17⟩
    base_fee := 100
    num_states_in_base_fee := 1
    num_employees_in_base_fee := 5
    add_state_fee := 20
    add_employee_fee := 5
    use_pct_increase := 0
    fee_increase_pct := 10
    fee_increase_effective_date := ⟨2025, 6, 1⟩
    incr_base_fee := 110
    incr_add_state_fee := 22
    incr_add_employee_fee := 11/2
    payroll_registration := 0
    registration_fee := 0
    terminated := false }

/-- A concrete pricing snapshot whose usage stays within the base allotment. -/
def sampleSnap : PeriodSnap :=
  { base_fee := 100
    add_state_fee := 20
    add_employee_fee := 5
    num_states_in_base_fee := 1
    num_employees_in_base_fee := 5
    payroll_registration := 0
    registration_fee := 0
    num_states_processed := 1
    num_employees_processed := 5
    registration_this_period := false
    num_states_registered := 0 }

/-- A concrete stored regular-period transaction with cost 100, nothing
collected, and `net_amount` correctly equal to 100. -/
def txn100 : Txn :=
  { client_id := 1
    period_type := .regular
    pay_frequency := .weekly
    pay_start_date := ⟨2025, 1, 1⟩
    pay_end_date := ⟨2025, 1, 7⟩
    processing_date := ⟨2025, 1, 7⟩
    pay_date := ⟨2025, 1, 8⟩
    snap := sampleSnap
    cost := 100
    collected := 0
    collection_description := ""
    collection_date := none
    net_amount := 100 }

/-- A concrete transaction with a net receivable of 50.00. -/
def txn50 : Txn :=
  { txn100 with cost := 50, net_amount := 50 }

/-- A concrete additional-period transaction of a semi-monthly client. -/
def addTxn : Txn :=
  { txn100 with period_type := .additional, pay_frequency := .semiMonthly }

/-- An edit of `txn100` that only raises the snapshot base fee to 200 and
leaves every date and usage count as stored. -/
def editForm200 : EditForm :=
  { start_dt := some ⟨2025, 1, 1⟩
    end_dt := some ⟨2025, 1, 7⟩
    base_fee := 200
    num_states_in_base := 1
    num_employees_in_base := 5
    add_state_fee := 20
    add_employee_fee := 5
    processing_date := some ⟨2025, 1, 7⟩
    pay_date := some ⟨2025, 1, 8⟩
    n_emp := some 5
    n_states := some 1
    register_choice := false
    registration_fee := 0
    num_register_states := some 0 }

/-- A new-period form whose start date (the 5th) is illegal for a
semi-monthly client. -/
def badPeriodForm : PeriodForm :=
  { start_dt := some ⟨2025, 1, 5⟩
    end_dt := some ⟨2025, 1, 20⟩
    processing_date := some ⟨2025, 1, 20⟩
    pay_date := some ⟨2025, 1, 21⟩
    n_emp := some 5
    n_states := some 1
    register_choice := false
    num_register_states := some 0 }

/-- An edit form whose start date (the 5th) is illegal for a semi-monthly
transaction. -/
def badEditForm : EditForm :=
  { start_dt := some ⟨2025, 1, 5⟩
    end_dt := some ⟨2025, 1, 20⟩
    base_fee := 100
    num_states_in_base := 1
    num_employees_in_base := 5
    add_state_fee := 20
    add_employee_fee := 5
    processing_date := some ⟨2025, 1, 20⟩
    pay_date := some ⟨2025, 1, 21⟩
    n_emp := some 5
    n_states := some 1
    register_choice := false
    registration_fee := 0
    num_register_states := some 0 }

/-- A collections row carrying an unparseable collection date (Feb 30). -/
def badRow : CollectRow :=
  { id := 7
    cost := 100
    collected := some 40
    collection_description := some "pmt"
    collection_date := some "02/30/2025" }

/-- A collections row that passes date validation (no date entered) but whose
collected cell was cleared, i.e. a pandas `NaN`. -/
def nanRow : CollectRow :=
  { id := 8
    cost := 100
    collected := none
    collection_description := some ""
    collection_date := none }

/-! ## Claim theorems -/

/-- C1: `calc_cost` returns
`round(base_fee + max(0, states_processed - states_in_base) * add_state_fee +
max(0, employees_processed - employees_in_base) * add_employee_fee +
(surcharge term when invoked this period and enabled), 2)`; in particular the
spec scenario (base 100 covering 1 state and 5 employees, fees 20/5, usage
3 states and 8 employees, no surcharge) costs 155.00. -/
theorem calc_cost_formula_and_scenario
    (bf asf aef : ℚ) (sib eib preg : ℤ) (rf : ℚ) (sp ep : ℤ) (rtp : Bool) (sr : ℤ) :
    calc_cost bf asf aef sib eib preg rf sp ep rtp sr =
      round2 (bf + ((max 0 (sp - sib) : ℤ) : ℚ) * asf + ((max 0 (ep - eib) : ℤ) : ℚ) * aef +
        (if rtp ∧ preg = 1 then ((max 0 (sr - sib) : ℤ) : ℚ) * rf else 0)) ∧
    calc_cost 100 20 5 1 5 0 0 3 8 false 0 = 155 := by
  constructor
  · simp only [calc_cost]
    split
    · congr 1
    · congr 1; ring
  · simp only [calc_cost]
    norm_num [round2_eq]

/-- C2 (code bug): editing a period recomputes `cost` from the edited
snapshot but the `UPDATE` omits `net_amount`, so the stored
`net_amount = round(cost − collected, 2)` invariant breaks: editing the
correctly-stored `txn100` (cost 100, collected 0, net 100) to a 200 base fee
yields a row with cost 200, collected 0 and a stale net amount of 100. -/
theorem edit_period_net_amount_bug :
    ∃ t2, save_edit_period txn100 editForm200 = Except.ok t2 ∧
      t2.collected = 0 ∧ t2.net_amount = 100 ∧ t2.cost = 200 ∧
      t2.net_amount ≠ round2 (t2.cost - t2.collected) := by
  refine ⟨_, rfl, rfl, rfl, ?_, ?_⟩
  · norm_num [txn100, editForm200, sampleSnap, calcCostSnap, calc_cost, round2_eq]
  · norm_num [txn100, editForm200, sampleSnap, calcCostSnap, calc_cost, round2_eq]

/-- C3: `advance_pay_start_date` adds 7 days for weekly and 14 for biweekly;
for semi-monthly it maps day 1 to day 16 of the same month and day 16 to the
1st of the next month (December wrapping to January of the next year); for
monthly it maps day 1 to the 1st of the next month. -/
theorem advance_pay_start_date_spec (d : Date) :
    advance_pay_start_date d .weekly = some (addDays d 7) ∧
    advance_pay_start_date d .biweekly = some (addDays d 14) ∧
    (d.day = 1 → advance_pay_start_date d .semiMonthly = some ⟨d.year, d.month, 16⟩) ∧
    (d.day = 16 →
      advance_pay_start_date d .semiMonthly =
        some (if d.month = 12 then ⟨d.year + 1, 1, 1⟩ else ⟨d.year, d.month + 1, 1⟩)) ∧
    (d.day = 1 →
      advance_pay_start_date d .monthly =
        some (if d.month = 12 then ⟨d.year + 1, 1, 1⟩ else ⟨d.year, d.month + 1, 1⟩)) := by
  refine ⟨rfl, rfl, ?_, ?_, ?_⟩
  · intro h; simp [advance_pay_start_date, h]
  · intro h; simp [advance_pay_start_date, first_of_next_month, h]
  · intro h; simp [advance_pay_start_date, first_of_next_month, h]

/-- Witness for C3 at the spec's semi-monthly scenario dates. -/
theorem advance_pay_start_date_spec_witness :
    advance_pay_start_date ⟨2024, 12, 16⟩ .semiMonthly = some ⟨2025, 1, 1⟩ ∧
    advance_pay_start_date ⟨2024, 12, 1⟩ .semiMonthly = some ⟨2024, 12, 16⟩ := by
  constructor
  · have h := (advance_pay_start_date_spec ⟨2024, 12, 16⟩).2.2.2.1 rfl
    simpa using h
  · exact (advance_pay_start_date_spec ⟨2024, 12, 1⟩).2.2.1 rfl

/-- C4: on any start date accepted by `validate_start_date` for a frequency,
`advance_pay_start_date` succeeds and lands on a date again accepted for that
frequency, and hence so does every finite iteration. -/
theorem validate_advance_closure (freq : Freq) (d : Date)
    (h : (validate_start_date freq d).1 = true) :
    (∃ d2, advance_pay_start_date d freq = some d2 ∧ (validate_start_date freq d2).1 = true) ∧
    (∀ n, ∃ d2, advance_iter freq n d = some d2 ∧ (validate_start_date freq d2).1 = true) := by
  have step : ∀ e : Date, (validate_start_date freq e).1 = true →
      ∃ e2, advance_pay_start_date e freq = some e2 ∧ (validate_start_date freq e2).1 = true := by
    intro e he
    cases freq with
    | weekly => exact ⟨addDays e 7, rfl, rfl⟩
    | biweekly => exact ⟨addDays e 14, rfl, rfl⟩
    | semiMonthly =>
        have hd : e.day = 1 ∨ e.day = 16 := by simpa [validate_start_date] using he
        rcases hd with h1 | h16
        · exact ⟨⟨e.year, e.month, 16⟩, by simp [advance_pay_start_date, h1], by
            simp [validate_start_date]⟩
        · refine ⟨first_of_next_month e, by simp [advance_pay_start_date, h16], ?_⟩
          simp only [validate_start_date, first_of_next_month]
          split <;> simp
    | monthly =>
        have h1 : e.day = 1 := by simpa [validate_start_date] using he
        refine ⟨first_of_next_month e, by simp [advance_pay_start_date, h1], ?_⟩
        simp only [validate_start_date, first_of_next_month]
        split <;> simp
  have iter : ∀ n (e : Date), (validate_start_date freq e).1 = true →
      ∃ e2, advance_iter freq n e = some e2 ∧ (validate_start_date freq e2).1 = true := by
    intro n
    induction n with
    | zero => intro e he; exact ⟨e, rfl, he⟩
    | succ n ih =>
        intro e he
        obtain ⟨e2, hadv, hval⟩ := step e he
        obtain ⟨e3, hiter, hval3⟩ := ih e2 hval
        exact ⟨e3, by simp [advance_iter, hadv, hiter], hval3⟩
  exact ⟨step d h, fun n => iter n d h⟩

/-- Witness for C4: three semi-monthly advances from 2024-12-16 stay legal. -/
theorem validate_advance_closure_witness :
    ∃ d2, advance_iter .semiMonthly 3 ⟨2024, 12, 16⟩ = some d2 ∧
      (validate_start_date .semiMonthly d2).1 = true :=
  (validate_advance_closure .semiMonthly ⟨2024, 12, 16⟩ (by decide)).2 3

/-- C5: the rollover updates exactly the active clients whose effective date
is today: each promotes the stored future (`incr_*`) fees into the current
fee fields, advances the effective date by one year, recomputes each new
future fee as `round(promoted_value * (1 + pct/100), 2)`, resets the
escalation mode to Percent (`use_pct_increase = 1`) and changes nothing
else; every other client row is untouched. -/
theorem rollover_fees_spec (today : Date) (c : Client) :
    ((c.terminated = false ∧ c.fee_increase_effective_date = today) →
      (rolloverStep today c).base_fee = c.incr_base_fee ∧
      (rolloverStep today c).add_state_fee = c.incr_add_state_fee ∧
      (rolloverStep today c).add_employee_fee = c.incr_add_employee_fee ∧
      (rolloverStep today c).fee_increase_effective_date =
        sqliteAddOneYear c.fee_increase_effective_date ∧
      (rolloverStep today c).incr_base_fee =
        round2 ((rolloverStep today c).base_fee * (1 + c.fee_increase_pct / 100)) ∧
      (rolloverStep today c).incr_add_state_fee =
        round2 ((rolloverStep today c).add_state_fee * (1 + c.fee_increase_pct / 100)) ∧
      (rolloverStep today c).incr_add_employee_fee =
        round2 ((rolloverStep today c).add_employee_fee * (1 + c.fee_increase_pct / 100)) ∧
      (rolloverStep today c).use_pct_increase = 1 ∧
      (rolloverStep today c).id = c.id ∧
      (rolloverStep today c).client_name = c.client_name ∧
      (rolloverStep today c).pay_frequency = c.pay_frequency ∧
      (rolloverStep today c).pay_start_date = c.pay_start_date ∧
      (rolloverStep today c).processing_date = c.processing_date ∧
      (rolloverStep today c).pay_date = c.pay_date ∧
      (rolloverStep today c).num_states_in_base_fee = c.num_states_in_base_fee ∧
      (rolloverStep today c).num_employees_in_base_fee = c.num_employees_in_base_fee ∧
      (rolloverStep today c).fee_increase_pct = c.fee_increase_pct ∧
      (rolloverStep today c).payroll_registration = c.payroll_registration ∧
      (rolloverStep today c).registration_fee = c.registration_fee ∧
      (rolloverStep today c).terminated = c.terminated) ∧
    (¬(c.terminated = false ∧ c.fee_increase_effective_date = today) →
      rolloverStep today c = c) ∧
    (∀ cs : List Client, rollover_fees_for_today today cs = cs.map (rolloverStep today)) := by
  refine ⟨?_, ?_, fun _ => rfl⟩
  · intro hc
    simp [rolloverStep, rolloverClient, hc]
  · intro hc
    simp [rolloverStep, hc]

/-- Witness for C5: rolling over `sampleClient` on its effective date
promotes the future base fee, resets the mode flag to Percent and moves the
effective date one year out. -/
theorem rollover_fees_spec_witness :
    (rolloverStep ⟨2025, 6, 1⟩ sampleClient).base_fee = sampleClient.incr_base_fee ∧
    (rolloverStep ⟨2025, 6, 1⟩ sampleClient).use_pct_increase = 1 ∧
    (rolloverStep ⟨2025, 6, 1⟩ sampleClient).fee_increase_effective_date = ⟨2026, 6, 1⟩ := by
  have h := (rollover_fees_spec ⟨2025, 6, 1⟩ sampleClient).1 ⟨rfl, rfl⟩
  refine ⟨h.1, h.2.2.2.2.2.2.2.1, ?_⟩
  rw [h.2.2.2.1]
  decide

/-- C6: the rollover is idempotent per day, both through the last-run-date
guard of `maybe_rollover_fees_for_today` and for the raw batch update itself
(after one run no client's effective date equals today any more). -/
theorem rollover_idempotent_per_day (today : Date) (s : SysState) :
    maybe_rollover_fees_for_today today (maybe_rollover_fees_for_today today s) =
      maybe_rollover_fees_for_today today s ∧
    ∀ cs : List Client,
      rollover_fees_for_today today (rollover_fees_for_today today cs) =
        rollover_fees_for_today today cs := by
  have hstep : ∀ c : Client, rolloverStep today (rolloverStep today c) = rolloverStep today c := by
    intro c
    by_cases hc : c.terminated = false ∧ c.fee_increase_effective_date = today
    · have h1 : rolloverStep today c = rolloverClient c := by simp [rolloverStep, hc]
      have h2 : (rolloverClient c).fee_increase_effective_date ≠ today := by
        show sqliteAddOneYear c.fee_increase_effective_date ≠ today
        rw [hc.2]
        intro heq
        have hy : (sqliteAddOneYear today).year = today.year + 1 := by
          unfold sqliteAddOneYear
          split <;> rfl
        rw [heq] at hy
        omega
      rw [h1]
      simp [rolloverStep, h2]
    · have h1 : rolloverStep today c = c := by simp [rolloverStep, hc]
      rw [h1, h1]
  have hlist : ∀ cs : List Client,
      rollover_fees_for_today today (rollover_fees_for_today today cs) =
        rollover_fees_for_today today cs := by
    intro cs
    unfold rollover_fees_for_today
    rw [List.map_map]
    congr 1
    funext c
    exact hstep c
  refine ⟨?_, hlist⟩
  by_cases hm : s.last_rollover_date = some today
  · simp [maybe_rollover_fees_for_today, hm]
  · simp [maybe_rollover_fees_for_today, hm]

/-- C7: with nonnegative per-unit overage fees, `calc_cost` is monotonically
non-decreasing in the processed state and employee counts, and when usage
stays within the base allotment and no surcharge applies the cost is exactly
the rounded base fee. -/
theorem calc_cost_monotone_clamped
    (bf asf aef : ℚ) (sib eib preg : ℤ) (rf : ℚ) (rtp : Bool) (sr : ℤ)
    (hasf : 0 ≤ asf) (haef : 0 ≤ aef) :
    (∀ sp sp2 ep, sp ≤ sp2 →
      calc_cost bf asf aef sib eib preg rf sp ep rtp sr ≤
        calc_cost bf asf aef sib eib preg rf sp2 ep rtp sr) ∧
    (∀ sp ep ep2, ep ≤ ep2 →
      calc_cost bf asf aef sib eib preg rf sp ep rtp sr ≤
        calc_cost bf asf aef sib eib preg rf sp ep2 rtp sr) ∧
    (∀ sp ep, sp ≤ sib → ep ≤ eib → ¬(rtp = true ∧ preg = 1) →
      calc_cost bf asf aef sib eib preg rf sp ep rtp sr = round2 bf) := by
  refine ⟨?_, ?_, ?_⟩
  · intro sp sp2 ep h
    simp only [calc_cost]
    have hkey : ((max 0 (sp - sib) : ℤ) : ℚ) * asf ≤ ((max 0 (sp2 - sib) : ℤ) : ℚ) * asf := by
      apply mul_le_mul_of_nonneg_right _ hasf
      exact_mod_cast max_le_max le_rfl (sub_le_sub_right h sib)
    apply round2_mono
    split
    · linarith
    · linarith
  · intro sp ep ep2 h
    simp only [calc_cost]
    have hkey : ((max 0 (ep - eib) : ℤ) : ℚ) * aef ≤ ((max 0 (ep2 - eib) : ℤ) : ℚ) * aef := by
      apply mul_le_mul_of_nonneg_right _ haef
      exact_mod_cast max_le_max le_rfl (sub_le_sub_right h eib)
    apply round2_mono
    split
    · linarith
    · linarith
  · intro sp ep h1 h2 hreg
    simp only [calc_cost]
    rw [if_neg (by simpa using hreg)]
    have e1 : max (0 : ℤ) (sp - sib) = 0 := by omega
    have e2 : max (0 : ℤ) (ep - eib) = 0 := by omega
    rw [e1, e2]
    norm_num

/-- Witness for C7: one monotone step at the spec scenario and the clamped
within-base cost. -/
theorem calc_cost_monotone_clamped_witness :
    calc_cost 100 20 5 1 5 0 0 2 8 false 0 ≤ calc_cost 100 20 5 1 5 0 0 3 8 false 0 ∧
    calc_cost 100 20 5 1 5 0 0 1 5 false 0 = round2 100 := by
  have h := calc_cost_monotone_clamped 100 20 5 1 5 0 0 false 0
    (by norm_num) (by norm_num)
  exact ⟨h.1 2 3 8 (by norm_num), h.2.2 1 5 (by norm_num) (by norm_num) (by simp)⟩

/-- C8: termination is denied with the outstanding-balance reason and no
mutation whenever the client's summed transaction net amount is positive,
and succeeds only when that sum is ≤ 0, in which case only the `terminated`
flag changes. -/
theorem terminate_outstanding_balance_gate (txns : List Txn) (c : Client) :
    (0 < get_client_net_amount txns c.id →
      terminate_client txns c = Except.error "outstanding balance") ∧
    (∀ c2, terminate_client txns c = Except.ok c2 →
      get_client_net_amount txns c.id ≤ 0 ∧ c2 = { c with terminated := true }) := by
  constructor
  · intro h
    simp [terminate_client, h]
  · intro c2 h
    by_cases hp : get_client_net_amount txns c.id > 0
    · simp [terminate_client, hp] at h
    · simp [terminate_client, hp] at h
      exact ⟨le_of_not_lt hp, h.symm⟩

/-- Witness for C8 at the spec scenario: a net receivable of 50.00 blocks
termination. -/
theorem terminate_outstanding_balance_gate_witness :
    terminate_client [txn50] sampleClient = Except.error "outstanding balance" := by
  apply (terminate_outstanding_balance_gate [txn50] sampleClient).1
  norm_num [get_client_net_amount, txn50, txn100, sampleClient]

/-- C9 counterexample: the one-row batch `[nanRow]` passes date validation
and carries an absent collected amount, yet instead of being written with
collected treated as 0 the update fails whole with the integrity error — the
claim's absent-as-0 clause is false on the code. -/
theorem update_client_payments_nan_counterexample :
    nanRow.collected = none ∧
    (∀ r ∈ [nanRow], rowDateOk r = true) ∧
    update_client_payments [nanRow] =
      Except.error "NOT NULL constraint failed: transactions.collected" ∧
    ∀ ups, update_client_payments [nanRow] ≠ Except.ok ups := by
  refine ⟨rfl, ?_, rfl, ?_⟩
  · intro r hr
    simp only [List.mem_singleton] at hr
    subst hr
    rfl
  · intro ups h
    rw [(rfl : update_client_payments [nanRow] =
      Except.error "NOT NULL constraint failed: transactions.collected")] at h
    exact Except.noConfusion h

/-- C9 (amended): a collections batch containing any non-blank unparseable
collection date is rejected whole with the descriptive message and no row is
written; a batch passing date validation in which some row's collected
amount is absent (`NaN`) fails whole with the `NOT NULL` integrity error and
no row is written; otherwise every row is written, each with its present
collected amount and `net_amount = round(cost − collected, 2)`. -/
theorem update_client_payments_batch (updates : List CollectRow) :
    ((∃ r ∈ updates, ∃ s, r.collection_date = some s ∧ pyStrip s ≠ "" ∧
        parse_mmddyyyy s = none) →
      update_client_payments updates =
        Except.error "Collection Date must be a valid date in the form of MM/DD/YYYY") ∧
    (((∀ r ∈ updates, rowDateOk r = true) ∧ (∃ r ∈ updates, r.collected = none)) →
      update_client_payments updates =
        Except.error "NOT NULL constraint failed: transactions.collected") ∧
    (∀ ups, update_client_payments updates = Except.ok ups →
      ups = updates.map applyCollectRow ∧
      ∀ r ∈ updates, ∃ c, r.collected = some c ∧
        (applyCollectRow r).collected = some c ∧
        (applyCollectRow r).net_amount = some (round2 (r.cost - c))) := by
  refine ⟨?_, ?_, ?_⟩
  · rintro ⟨r, hr, s, hs, hne, hnone⟩
    unfold update_client_payments
    rw [if_pos]
    intro hall
    have hok := List.all_eq_true.mp hall r hr
    simp [rowDateOk, hs, hnone, hne] at hok
  · rintro ⟨hdates, r, hr, hnone⟩
    have h1 : updates.all rowDateOk = true := List.all_eq_true.mpr hdates
    have h2 : ¬ (updates.all (fun r => r.collected.isSome) = true) := by
      rw [List.all_eq_true]
      intro hforall
      have hs := hforall r hr
      rw [hnone] at hs
      simp at hs
    simp [update_client_payments, h1, h2]
  · intro ups h
    unfold update_client_payments at h
    split at h
    · exact Except.noConfusion h
    · split at h
      · simp only [Except.ok.injEq] at h
        refine ⟨h.symm, ?_⟩
        rename_i hall
        intro r hr
        have hs := List.all_eq_true.mp hall r hr
        obtain ⟨c, hc⟩ := Option.isSome_iff_exists.mp hs
        refine ⟨c, hc, ?_, ?_⟩
        · exact hc
        · show r.collected.map _ = some (round2 (r.cost - c))
          rw [hc]
          rfl
      · exact Except.noConfusion h

/-- Witness for C9: a one-row batch with collection date 02/30/2025 is
rejected whole with the date message. -/
theorem update_client_payments_batch_witness :
    update_client_payments [badRow] =
      Except.error "Collection Date must be a valid date in the form of MM/DD/YYYY" := by
  apply (update_client_payments_batch [badRow]).1
  exact ⟨badRow, by simp, "02/30/2025", rfl, by decide, by decide⟩

/-- C10: for an additional-type period, both creation and edit validate the
operator-supplied start date against the client's pay frequency; an illegal
start day puts the frequency's message into the validation batch and the
submission is rejected. -/
theorem additional_period_start_validation (client : Client) (f : PeriodForm)
    (t : Txn) (g : EditForm) (sd sd2 : Date)
    (h2 : f.start_dt = some sd)
    (h3 : (validate_start_date client.pay_frequency sd).1 = false)
    (h4 : t.period_type = .additional)
    (h5 : g.start_dt = some sd2)
    (h6 : (validate_start_date t.pay_frequency sd2).1 = false) :
    (∃ errs, submit_period client .additional f = Except.error errs ∧
      ("• " ++ (validate_start_date client.pay_frequency sd).2) ∈ errs) ∧
    (∃ errs, save_edit_period t g = Except.error errs ∧
      ("• " ++ (validate_start_date t.pay_frequency sd2).2) ∈ errs) := by
  constructor
  · refine ⟨?_, ?_, ?_⟩
    · exact period_submit_errors .additional client.pay_frequency f.start_dt f.end_dt
        f.processing_date f.pay_date f.n_emp f.n_states
        (if client.payroll_registration = 1 then f.register_choice else false)
        (if (if client.payroll_registration = 1 then f.register_choice else false) = true
          then f.num_register_states else some 0)
    · simp only [submit_period]
      rw [if_pos]
      simp [period_submit_errors, h2, h3]
    · simp [period_submit_errors, h2, h3]
  · refine ⟨?_, ?_, ?_⟩
    · exact period_submit_errors .additional t.pay_frequency g.start_dt g.end_dt
        g.processing_date g.pay_date g.n_emp g.n_states
        (if t.snap.payroll_registration = 1 then g.register_choice else false)
        (if t.snap.payroll_registration = 1 then
          (if (if t.snap.payroll_registration = 1 then g.register_choice else false) = true
            then g.num_register_states else some 0)
         else some 0)
    · simp only [save_edit_period, h4]
      rw [if_pos]
      simp [period_submit_errors, h5, h6]
    · simp [period_submit_errors, h5, h6]

/-- Witness for C10: start day 5 for a semi-monthly client is rejected both
at creation and at edit. -/
theorem additional_period_start_validation_witness :
    (∃ errs, submit_period sampleClient .additional badPeriodForm = Except.error errs) ∧
    (∃ errs, save_edit_period addTxn badEditForm = Except.error errs) := by
  have h := additional_period_start_validation sampleClient badPeriodForm addTxn badEditForm
    ⟨2025, 1, 5⟩ ⟨2025, 1, 5⟩ rfl (by decide) rfl rfl (by decide)
  obtain ⟨⟨e1, he1, -⟩, ⟨e2, he2, -⟩⟩ := h
  exact ⟨⟨e1, he1⟩, ⟨e2, he2⟩⟩

end Emulator
